import Mathlib

/-!
Shallow embedding of `autogenstudio/database/utils.py` (the bucketmanager
repository's single source file): the JSON-like values its pydantic dumps
produce, the relational rows it reads, and the three functions
`workflow_from_id`, `run_migration` and `init_db_samples`.

The ORM model classes (`Workflow`, `Agent`, `WorkflowAgentLink`, ...) live in
the `..datamodel` module, which is not part of the repository's staged files;
rows are therefore carried as records of the attributes utils.py reads plus
their `model_dump` field list, and `dbmanager.get` / `get_items` are modelled
as filters over those row lists (the spec lists `dbmanager.get/get_items/link`
as external collaborators).
-/

namespace AutogenDbUtils

/-- JSON-like values: what `model_dump(mode="json")` produces and the nested
dictionaries `workflow_from_id` assembles. Objects are ordered key/value
lists, matching Python dict insertion order. -/
inductive JValue where
  | null : JValue
  | bool (b : Bool) : JValue
  | num (n : Int) : JValue
  | str (s : String) : JValue
  | arr (elems : List JValue) : JValue
  | obj (fields : List (String × JValue)) : JValue

/-- Python truthiness of a JSON-like value (`if llm_config:`). -/
def jTruthy : JValue → Bool
  | JValue.null => false
  | JValue.bool b => b
  | JValue.num n => n != 0
  | JValue.str s => s ≠ ""
  | JValue.arr xs => !xs.isEmpty
  | JValue.obj fs => !fs.isEmpty

/-- Python `d[k]` / `d.get(k)` on an ordered dictionary: first matching key. -/
def getKey : List (String × JValue) → String → Option JValue
  | [], _ => none
  | (k, v) :: rest, key => if k = key then some v else getKey rest key

/-- Python `d[k] = v` on an ordered dictionary: overwrite in place when the key
exists (keeping its position), append otherwise. -/
def setKey : List (String × JValue) → String → JValue → List (String × JValue)
  | [], key, v => [(key, v)]
  | (k, w) :: rest, key, v =>
    if k = key then (k, v) :: rest else (k, w) :: setKey rest key v

/-- Pydantic `model_dump(exclude=names)`: drop the named fields. -/
def dumpExclude (fields : List (String × JValue)) (exclude : List String) :
    List (String × JValue) :=
  fields.filter (fun kv => !(exclude.contains kv.1))

/-- Python `v == s` for a JSON value against a string literal: true only when
`v` is that string (cross-type equality is false in Python). -/
def isStrEq (v : JValue) (s : String) : Bool :=
  match v with
  | JValue.str t => t = s
  | _ => false

/-- The exceptions the embedded code can raise. `recursionError` stands for
Python's stack overflow on a cyclic agent graph (the embedding is fuelled). -/
inductive PyErr where
  | valueError (msg : String) : PyErr
  | indexError : PyErr
  | keyError : PyErr
  | typeError : PyErr
  | recursionError : PyErr
deriving DecidableEq

/-- Agent types of the datamodel's `AgentType` enum, as utils.py uses them. -/
inductive AgentType where
  | assistant : AgentType
  | userproxy : AgentType
  | groupchat : AgentType
deriving DecidableEq

/-- A `Model` row: its `model_dump(mode="json")` field list. -/
structure ModelRow where
  fields : List (String × JValue)

/-- A `Skill` row: its `model_dump(mode="json")` field list. -/
structure SkillRow where
  fields : List (String × JValue)

/-- An `Agent` row: the attributes `workflow_from_id` reads. `fields` is the
row's `model_dump(mode="json", warnings=False)` with no exclusions;
`skills`, `models` and `agents` are the ORM relationship lists, sub-agents
kept as ids since `get_agent` refetches each one by id. -/
structure AgentRow where
  id : Int
  type : AgentType
  fields : List (String × JValue)
  skills : List SkillRow
  models : List ModelRow
  agents : List Int

/-- A `Workflow` row: id and name attributes plus its dump field list
(`workflow_from_id` reads `workflow["type"]` from the dump). -/
structure WorkflowRow where
  id : Int
  name : String
  fields : List (String × JValue)

/-- A `WorkflowAgentLink` row, with the columns utils.py reads. -/
structure WorkflowAgentLinkRow where
  workflow_id : Int
  agent_id : Int
  agent_type : String
  sequence_id : Int

/-- Modelled from the spec: the datamodel module defining `WorkflowAgentLink`
is not among the staged files, so `link.model_dump(mode="json")` is the
record of the link's columns. -/
def linkDump (l : WorkflowAgentLinkRow) : JValue :=
  JValue.obj [("workflow_id", JValue.num l.workflow_id),
              ("agent_id", JValue.num l.agent_id),
              ("agent_type", JValue.str l.agent_type),
              ("sequence_id", JValue.num l.sequence_id)]

/-- The database the dbmanager serves: the row tables utils.py queries. -/
structure Db where
  workflows : List WorkflowRow
  workflowAgentLinks : List WorkflowAgentLinkRow
  agents : List AgentRow

/-- Modelled from the spec: `dbmanager.get(Workflow, filters={"id": wid}).data`
is the workflows whose id matches. -/
def findWorkflow (db : Db) (wid : Int) : List WorkflowRow :=
  db.workflows.filter (fun w => w.id == wid)

/-- Modelled from the spec: `dbmanager.get_items(Agent, filters={"id": aid})`
is the agents whose id matches. -/
def findAgent (db : Db) (aid : Int) : List AgentRow :=
  db.agents.filter (fun a => a.id == aid)

/-- Modelled from the spec: the `WorkflowAgentLink` rows filtered on
`workflow_id`, in table order. -/
def linksFor (db : Db) (wid : Int) : List WorkflowAgentLinkRow :=
  db.workflowAgentLinks.filter (fun l => l.workflow_id == wid)

/-- The exclude list built by `dump_agent` for a non-groupchat agent
(source lines 41-48; `admin_name` appears twice there). -/
def agentExclude : List String :=
  ["admin_name", "messages", "max_round", "admin_name",
   "speaker_selection_method", "allow_repeat_speaker"]

/-- Source `dump_agent` (lines 38-49): groupchat agents dump every field,
others exclude the groupchat-only fields. -/
def dump_agent (agent : AgentRow) : List (String × JValue) :=
  if agent.type = AgentType.groupchat then agent.fields
  else dumpExclude agent.fields agentExclude

/-- The model fields excluded when building `config_list` (source lines 56-63). -/
def model_exclude : List String :=
  ["id", "agent_id", "created_at", "updated_at", "user_id", "description"]

/-- Source lines 67-72: when the agent has models, rewrite
`agent_dict["config"]["llm_config"]`. A missing `"config"` key raises KeyError
(the item assignment's lookup), a non-dict config or a truthy non-dict
llm_config raises TypeError, exactly as the Python item accesses would. -/
def applyLlmConfig (d2 : List (String × JValue))
    (models : List (List (String × JValue))) :
    Except PyErr (List (String × JValue)) :=
  if models.length > 0 then
    match getKey d2 "config" with
    | none => Except.error PyErr.keyError
    | some (JValue.obj cfg) =>
      match (getKey cfg "llm_config").getD (JValue.obj []) with
      | JValue.obj lc =>
        if jTruthy (JValue.obj lc) then
          Except.ok (setKey d2 "config" (JValue.obj (setKey cfg "llm_config"
            (JValue.obj (setKey lc "config_list"
              (JValue.arr (models.map JValue.obj)))))))
        else
          Except.ok (setKey d2 "config"
            (JValue.obj (setKey cfg "llm_config" (JValue.obj lc))))
      | llm_config =>
        if jTruthy llm_config then Except.error PyErr.typeError
        else
          Except.ok (setKey d2 "config"
            (JValue.obj (setKey cfg "llm_config" llm_config)))
    | some _ => Except.error PyErr.typeError
  else
    Except.ok d2

/-- Error-propagating map over a list, in source order (the Python list
comprehensions and loops stop at the first raised exception). -/
def mapEx (f : α → Except PyErr β) : List α → Except PyErr (List β)
  | [] => Except.ok []
  | a :: rest =>
    match f a with
    | Except.error e => Except.error e
    | Except.ok v =>
      match mapEx f rest with
      | Except.error e => Except.error e
      | Except.ok vs => Except.ok (v :: vs)

/-- Source `get_agent` (lines 51-74), fuelled against cyclic agent graphs:
fetch the agent (IndexError on a missing row, as `.data[0]` would raise), dump
it with `dump_agent`, set `"skills"` to the validated skills, `"models"` to
the full model dumps, rewrite the llm config from the excluded model dumps
when models exist, and set `"agents"` to the recursively built sub-agents. -/
def get_agent (db : Db) (fuel : Nat) (aid : Int) : Except PyErr JValue :=
  match fuel with
  | 0 => Except.error PyErr.recursionError
  | Nat.succ fuel0 =>
    match findAgent db aid with
    | [] => Except.error PyErr.indexError
    | agent :: _ =>
      match
        applyLlmConfig
          (setKey (setKey (dump_agent agent) "skills"
              (JValue.arr (agent.skills.map (fun s => JValue.obj s.fields))))
            "models" (JValue.arr (agent.models.map (fun m => JValue.obj m.fields))))
          (agent.models.map (fun m => dumpExclude m.fields model_exclude)) with
      | Except.error e => Except.error e
      | Except.ok d3 =>
        match mapEx (fun sid => get_agent db fuel0 sid) agent.agents with
        | Except.error e => Except.error e
        | Except.ok subs =>
          Except.ok (JValue.obj (setKey d3 "agents" (JValue.arr subs)))

/-- The loop of source lines 76-79: one record per link, in link order. -/
def buildRecords (db : Db) (fuel : Nat) :
    List WorkflowAgentLinkRow → Except PyErr (List JValue)
  | [] => Except.ok []
  | l :: rest =>
    match get_agent db fuel l.agent_id with
    | Except.error e => Except.error e
    | Except.ok a =>
      match buildRecords db fuel rest with
      | Except.error e => Except.error e
      | Except.ok more =>
        Except.ok (JValue.obj [("agent", a), ("link", linkDump l)] :: more)

/-- The sort key of source line 83: `x["link"]["sequence_id"]` (0 when absent;
the records built above always carry it). -/
def recSeq (x : JValue) : Int :=
  match x with
  | JValue.obj fs =>
    match getKey fs "link" with
    | some (JValue.obj lf) =>
      match getKey lf "sequence_id" with
      | some (JValue.num n) => n
      | _ => 0
    | _ => 0
  | _ => 0

/-- The `"link"` part of a record (for stating order preservation). -/
def recLink (x : JValue) : JValue :=
  match x with
  | JValue.obj fs => (getKey fs "link").getD JValue.null
  | _ => JValue.null

/-- Stable insertion step for the sort by `recSeq`. -/
def insertRec (a : JValue) : List JValue → List JValue
  | [] => [a]
  | b :: bs => if recSeq a ≤ recSeq b then a :: b :: bs else b :: insertRec a bs

/-- Python's `sorted(agents, key=lambda x: x["link"]["sequence_id"])`:
`sorted` is a stable ascending sort, embedded as stable insertion sort
(stable sorts by the same key agree pointwise). -/
def sortRecords : List JValue → List JValue
  | [] => []
  | a :: rest => insertRec a (sortRecords rest)

/-- Source `workflow_from_id` (lines 31-85): fetch the workflow (ValueError
when absent), dump it, build one record per `WorkflowAgentLink` row, sort the
records by `sequence_id` when the workflow's dumped `"type"` is
`"sequential"`, and return the dump with the records under `"agents"`.
Reading `workflow["type"]` raises KeyError when the dump lacks the key. -/
def workflow_from_id (db : Db) (fuel : Nat) (workflow_id : Int) :
    Except PyErr JValue :=
  match findWorkflow db workflow_id with
  | [] => Except.error (PyErr.valueError "The specified workflow does not exist.")
  | wf :: _ =>
    match buildRecords db fuel (linksFor db workflow_id) with
    | Except.error e => Except.error e
    | Except.ok agents =>
      match getKey wf.fields "type" with
      | none => Except.error PyErr.keyError
      | some t =>
        Except.ok (JValue.obj (setKey wf.fields "agents"
          (JValue.arr (if isStrEq t "sequential" then sortRecords agents else agents))))

/-!
Embedding of `run_migration` (source lines 88-142). The alembic commands and
the `alembic_version` probe are external calls; an environment records the
outcome the world gives each call site. Each outcome is `Except ExcKind Unit`:
`ok` when the call returns, `error k` when it raises an exception of kind `k`.
`commandError` stands for `util.exc.CommandError`, `autogenDiffs` for its
subclass `util.exc.AutogenerateDiffsDetected` (the models/database mismatch),
`otherError` for any exception of another type.
-/

/-- Kinds of exception an external alembic/database call can raise. -/
inductive ExcKind where
  | commandError : ExcKind
  | autogenDiffs : ExcKind
  | otherError : ExcKind
deriving DecidableEq

/-- The observable operations `run_migration` performs, in order. -/
inductive MigEvent where
  | queryVersionTable : MigEvent
  | ensureVersion : MigEvent
  | upgradeHead : MigEvent
  | check : MigEvent
deriving DecidableEq

/-- How a call of `run_migration` ends: normally, with the explicit
`RuntimeError` raise of line 118, or by an exception escaping uncaught. -/
inductive MigResult where
  | ok : MigResult
  | runtimeError (msg : String) : MigResult
  | uncaught (e : ExcKind) : MigResult
deriving DecidableEq

/-- The world's response at each external call site of one `run_migration`
execution: the `SELECT * FROM alembic_version` probe, `command.ensure_version`,
the `command.upgrade(cfg, "head")` of the init branch (line 114), the first
`command.check` (line 124), the `command.upgrade` retry (line 128) and the
second `command.check` (line 135). -/
structure MigrationEnv where
  versionTableQuery : Except ExcKind Unit
  ensureVersion : Except ExcKind Unit
  upgradeInit : Except ExcKind Unit
  check1 : Except ExcKind Unit
  upgradeRetry : Except ExcKind Unit
  check2 : Except ExcKind Unit

/-- Source lines 100-108: `should_initialize_alembic` is set when the
`alembic_version` probe raises (any exception kind). -/
def shouldInit (env : MigrationEnv) : Bool :=
  match env.versionTableQuery with
  | Except.ok _ => false
  | Except.error _ => true

/-- Whether the init branch's two alembic calls fail (either raising makes
line 118 raise `RuntimeError`). -/
def initFails (env : MigrationEnv) : Bool :=
  match env.ensureVersion with
  | Except.error _ => true
  | Except.ok _ =>
    match env.upgradeInit with
    | Except.error _ => true
    | Except.ok _ => false

/-- Source lines 110-118: `ensure_version` then `upgrade("head")`; any
exception is logged and re-raised as `RuntimeError("Error initializing
alembic")`. Returns the events performed and the raise, when there is one. -/
def initPhase (env : MigrationEnv) : List MigEvent × Option MigResult :=
  match env.ensureVersion with
  | Except.error _ =>
    ([MigEvent.ensureVersion], some (MigResult.runtimeError "Error initializing alembic"))
  | Except.ok _ =>
    match env.upgradeInit with
    | Except.error _ =>
      ([MigEvent.ensureVersion, MigEvent.upgradeHead],
       some (MigResult.runtimeError "Error initializing alembic"))
    | Except.ok _ => ([MigEvent.ensureVersion, MigEvent.upgradeHead], none)

/-- Source lines 122-131: the first `command.check`. Every exception is
caught; a `CommandError` (or its `AutogenerateDiffsDetected` subclass)
triggers one `upgrade("head")` attempt whose own failure is only logged.
Nothing here can escape. -/
def checkPhase1 (env : MigrationEnv) : List MigEvent :=
  match env.check1 with
  | Except.ok _ => [MigEvent.check]
  | Except.error e =>
    match e with
    | ExcKind.commandError => [MigEvent.check, MigEvent.upgradeHead]
    | ExcKind.autogenDiffs => [MigEvent.check, MigEvent.upgradeHead]
    | ExcKind.otherError => [MigEvent.check]

/-- Source lines 133-142: the second `command.check`.
`AutogenerateDiffsDetected` and `CommandError` are logged and swallowed (the
re-raises are commented out in the source); an exception of any other type is
not caught and escapes. -/
def checkPhase2 (env : MigrationEnv) : List MigEvent × MigResult :=
  match env.check2 with
  | Except.ok _ => ([MigEvent.check], MigResult.ok)
  | Except.error e =>
    match e with
    | ExcKind.autogenDiffs => ([MigEvent.check], MigResult.ok)
    | ExcKind.commandError => ([MigEvent.check], MigResult.ok)
    | ExcKind.otherError => ([MigEvent.check], MigResult.uncaught ExcKind.otherError)

/-- Source `run_migration` (lines 88-142): probe `alembic_version`, initialize
alembic when the probe raised, then run the two check phases. Returns the
events performed and how the call ends. -/
def run_migration (env : MigrationEnv) : List MigEvent × MigResult :=
  if shouldInit env then
    match initPhase env with
    | (evs, some r) => (MigEvent.queryVersionTable :: evs, r)
    | (evs, none) =>
      (MigEvent.queryVersionTable ::
        (evs ++ (checkPhase1 env ++ (checkPhase2 env).fst)),
       (checkPhase2 env).snd)
  else
    (MigEvent.queryVersionTable :: (checkPhase1 env ++ (checkPhase2 env).fst),
     (checkPhase2 env).snd)

/-- How many times the migration framework's check operation was invoked. -/
def countCheck : List MigEvent → Nat
  | [] => 0
  | MigEvent.check :: rest => countCheck rest + 1
  | _ :: rest => countCheck rest

/-- How many times `upgrade("head")` was invoked. -/
def countUpgrade : List MigEvent → Nat
  | [] => 0
  | MigEvent.upgradeHead :: rest => countUpgrade rest + 1
  | _ :: rest => countUpgrade rest

/-!
Embedding of `init_db_samples` (source lines 145-354). The sample rows are
carried with the constructor arguments the source passes (the two skills'
multi-kilobyte `content` code strings are elided: no claim concerns them).
Database-assigned ids are not modelled; link rows identify the linked
entities by the names the source constants carry.
-/

/-- Execution modes of the datamodel's `CodeExecutionConfigTypes` enum that
the seed data uses. -/
inductive CodeExecutionConfigTypes where
  | «local» : CodeExecutionConfigTypes
  | none : CodeExecutionConfigTypes
deriving DecidableEq

/-- A seeded `Model` row, with the constructor arguments of lines 154-177. -/
structure SeedModel where
  model : String
  description : String
  user_id : String
  api_type : String
  base_url : Option String := Option.none

/-- A seeded `Skill` row (lines 180-194); the `content` code string is elided. -/
structure SeedSkill where
  name : String
  description : String
  user_id : String
  libraries : List String
  secrets : List (String × Option String) := []

/-- An `AgentConfig`, with the fields the seed configs of lines 198-280 set. -/
structure AgentConfig where
  name : String
  description : String
  human_input_mode : String
  max_consecutive_auto_reply : Int
  system_message : String
  code_execution_config : CodeExecutionConfigTypes
  llm_config : JValue
  admin_name : Option String := Option.none
  default_auto_reply : Option String := Option.none
  speaker_selection_method : Option String := Option.none

/-- A seeded `Agent` row: user, type and config as the source passes them. -/
structure SeedAgent where
  user_id : String
  type : AgentType
  config : AgentConfig

/-- A seeded `Workflow` row (lines 286-300). -/
structure SeedWorkflow where
  name : String
  description : String
  user_id : String
  sample_tasks : List String

/-- Modelled from the spec: `dbmanager.link(link_type, primary_id,
secondary_id, agent_type?)` records one row in the named many-to-many link
table; the linked entities are identified here by name because their ids are
database-assigned. -/
structure LinkRec where
  link_type : String
  primary_id : String
  secondary_id : String
  agent_type : Option String := Option.none

/-- Modelled from the spec: `AssistantAgent.DEFAULT_SYSTEM_MESSAGE` comes from
the external `autogen` library; its exact text decides no claim. -/
def DEFAULT_SYSTEM_MESSAGE : String := "You are a helpful AI assistant."

def google_gemini_model : SeedModel :=
  { model := "gemini-1.5-pro-latest"
    description := "Google's Gemini model"
    user_id := "guestuser@gmail.com"
    api_type := "google" }

def azure_model : SeedModel :=
  { model := "gpt4-turbo"
    description := "Azure OpenAI  model"
    user_id := "guestuser@gmail.com"
    api_type := "azure"
    base_url := some "https://api.your azureendpoint.com/v1" }

def zephyr_model : SeedModel :=
  { model := "zephyr"
    description := "Local Huggingface Zephyr model via vLLM, LMStudio or Ollama"
    base_url := some "http://localhost:1234/v1"
    user_id := "guestuser@gmail.com"
    api_type := "open_ai" }

def gpt_4_model : SeedModel :=
  { model := "gpt-4-1106-preview"
    description := "OpenAI GPT-4 model"
    user_id := "guestuser@gmail.com"
    api_type := "open_ai" }

def generate_pdf_skill : SeedSkill :=
  { name := "generate_and_save_pdf"
    description := "Generate and save a pdf file based on the provided input sections."
    user_id := "guestuser@gmail.com"
    libraries := ["requests", "fpdf", "PIL"] }

def generate_image_skill : SeedSkill :=
  { name := "generate_and_save_images"
    secrets := [("OPENAI_API_KEY", Option.none)]
    libraries := ["openai"]
    description := "Generate and save images based on a user's query."
    user_id := "guestuser@gmail.com" }

def planner_assistant_config : AgentConfig :=
  { name := "planner_assistant"
    description := "Assistant Agent"
    human_input_mode := "NEVER"
    max_consecutive_auto_reply := 25
    system_message := "You are a helpful assistant that can suggest a travel plan for a user and utilize any context information provided. You are the primary cordinator who will receive suggestions or advice from other agents (local_assistant, language_assistant). You must ensure that the finally plan integrates the suggestions from other agents or team members. YOUR FINAL RESPONSE MUST BE THE COMPLETE PLAN. When the plan is complete and all perspectives are integrated, you can respond with TERMINATE."
    code_execution_config := CodeExecutionConfigTypes.none
    llm_config := JValue.obj [] }

def planner_assistant : SeedAgent :=
  { user_id := "guestuser@gmail.com"
    type := AgentType.assistant
    config := planner_assistant_config }

def local_assistant_config : AgentConfig :=
  { name := "local_assistant"
    description := "Local Assistant Agent"
    human_input_mode := "NEVER"
    max_consecutive_auto_reply := 25
    system_message := "You are a local assistant that can suggest local activities or places to visit for a user and can utilize any context information provided. You can suggest local activities, places to visit, restaurants to eat at, etc. You can also provide information about the weather, local events, etc. You can provide information about the local area, but you cannot suggest a complete travel plan. You can only provide information about the local area."
    code_execution_config := CodeExecutionConfigTypes.none
    llm_config := JValue.obj [] }

def local_assistant : SeedAgent :=
  { user_id := "guestuser@gmail.com"
    type := AgentType.assistant
    config := local_assistant_config }

def language_assistant_config : AgentConfig :=
  { name := "language_assistant"
    description := "Language Assistant Agent"
    human_input_mode := "NEVER"
    max_consecutive_auto_reply := 25
    system_message := "You are a helpful assistant that can review travel plans, providing feedback on important/critical tips about how best to address language or communication challenges for the given destination. If the plan already includes language tips, you can mention that the plan is satisfactory, with rationale."
    code_execution_config := CodeExecutionConfigTypes.none
    llm_config := JValue.obj [] }

def language_assistant : SeedAgent :=
  { user_id := "guestuser@gmail.com"
    type := AgentType.assistant
    config := language_assistant_config }

def travel_groupchat_config : AgentConfig :=
  { name := "travel_groupchat"
    admin_name := some "groupchat"
    description := "Group Chat Agent Configuration"
    human_input_mode := "NEVER"
    max_consecutive_auto_reply := 25
    system_message := "You are a group chat manager"
    code_execution_config := CodeExecutionConfigTypes.none
    default_auto_reply := some "TERMINATE"
    llm_config := JValue.obj []
    speaker_selection_method := some "auto" }

def travel_groupchat_agent : SeedAgent :=
  { user_id := "guestuser@gmail.com"
    type := AgentType.groupchat
    config := travel_groupchat_config }

def user_proxy_config : AgentConfig :=
  { name := "user_proxy"
    description := "User Proxy Agent Configuration"
    human_input_mode := "NEVER"
    max_consecutive_auto_reply := 25
    system_message := "You are a helpful assistant"
    code_execution_config := CodeExecutionConfigTypes.«local»
    default_auto_reply := some "TERMINATE"
    llm_config := JValue.bool false }

def user_proxy : SeedAgent :=
  { user_id := "guestuser@gmail.com"
    type := AgentType.userproxy
    config := user_proxy_config }

def default_assistant_config : AgentConfig :=
  { name := "default_assistant"
    description := "Assistant Agent"
    human_input_mode := "NEVER"
    max_consecutive_auto_reply := 25
    system_message := DEFAULT_SYSTEM_MESSAGE
    code_execution_config := CodeExecutionConfigTypes.none
    llm_config := JValue.obj [] }

def default_assistant : SeedAgent :=
  { user_id := "guestuser@gmail.com"
    type := AgentType.assistant
    config := default_assistant_config }

def travel_workflow : SeedWorkflow :=
  { name := "Travel Planning Workflow"
    description := "Travel workflow"
    user_id := "guestuser@gmail.com"
    sample_tasks := ["Plan a 3 day trip to Hawaii Islands.",
                     "Plan an eventful and exciting trip to  Uzbeksitan."] }

def default_workflow : SeedWorkflow :=
  { name := "Default Workflow"
    description := "Default workflow"
    user_id := "guestuser@gmail.com"
    sample_tasks := ["paint a picture of a glass of ethiopian coffee, freshly brewed in a tall glass cup, on a table right in front of a lush green forest scenery",
                     "Plot the stock price of NVIDIA YTD."] }

/-- The fourteen `dbmanager.link` calls of lines 320-353, in source order. -/
def seedLinks : List LinkRec :=
  [ { link_type := "agent_model", primary_id := default_assistant.config.name,
      secondary_id := gpt_4_model.model },
    { link_type := "agent_skill", primary_id := default_assistant.config.name,
      secondary_id := generate_image_skill.name },
    { link_type := "workflow_agent", primary_id := default_workflow.name,
      secondary_id := user_proxy.config.name, agent_type := some "sender" },
    { link_type := "workflow_agent", primary_id := default_workflow.name,
      secondary_id := default_assistant.config.name, agent_type := some "receiver" },
    { link_type := "agent_agent", primary_id := travel_groupchat_agent.config.name,
      secondary_id := planner_assistant.config.name },
    { link_type := "agent_agent", primary_id := travel_groupchat_agent.config.name,
      secondary_id := local_assistant.config.name },
    { link_type := "agent_agent", primary_id := travel_groupchat_agent.config.name,
      secondary_id := language_assistant.config.name },
    { link_type := "agent_agent", primary_id := travel_groupchat_agent.config.name,
      secondary_id := user_proxy.config.name },
    { link_type := "agent_model", primary_id := travel_groupchat_agent.config.name,
      secondary_id := gpt_4_model.model },
    { link_type := "agent_model", primary_id := planner_assistant.config.name,
      secondary_id := gpt_4_model.model },
    { link_type := "agent_model", primary_id := local_assistant.config.name,
      secondary_id := gpt_4_model.model },
    { link_type := "agent_model", primary_id := language_assistant.config.name,
      secondary_id := gpt_4_model.model },
    { link_type := "workflow_agent", primary_id := travel_workflow.name,
      secondary_id := user_proxy.config.name, agent_type := some "sender" },
    { link_type := "workflow_agent", primary_id := travel_workflow.name,
      secondary_id := travel_groupchat_agent.config.name, agent_type := some "receiver" } ]

/-- The database state `init_db_samples` reads and writes: the four seeded
tables, the link tables, and how many commits were issued. -/
structure SeedDb where
  models : List SeedModel
  skills : List SeedSkill
  agents : List SeedAgent
  workflows : List SeedWorkflow
  links : List LinkRec
  commits : Nat

/-- Source `init_db_samples` (lines 145-354): when workflows named both
"Default Workflow" and "Travel Planning Workflow" already exist, return with
nothing changed; otherwise add the four models, two skills, six agents and
two workflows in the source's `session.add` order, commit once, and record
the fourteen links. -/
def init_db_samples (db : SeedDb) : SeedDb :=
  if (db.workflows.map (fun w => w.name)).contains "Default Workflow" &&
      (db.workflows.map (fun w => w.name)).contains "Travel Planning Workflow" then
    db
  else
    { models := db.models ++ [zephyr_model, google_gemini_model, azure_model, gpt_4_model]
      skills := db.skills ++ [generate_image_skill, generate_pdf_skill]
      agents := db.agents ++ [user_proxy, default_assistant, travel_groupchat_agent,
                              planner_assistant, local_assistant, language_assistant]
      workflows := db.workflows ++ [travel_workflow, default_workflow]
      links := db.links ++ seedLinks
      commits := db.commits + 1 }

/-!
Helper lemmas about the migration phases.
-/

theorem checkPhase1_check_mem (env : MigrationEnv) :
    MigEvent.check ∈ checkPhase1 env := by
  unfold checkPhase1
  split
  · simp
  · split
    · simp
    · simp
    · simp

theorem checkPhase1_no_ensure (env : MigrationEnv) :
    MigEvent.ensureVersion ∉ checkPhase1 env := by
  unfold checkPhase1
  split
  · simp
  · split
    · simp
    · simp
    · simp

theorem checkPhase2_fst (env : MigrationEnv) :
    (checkPhase2 env).fst = [MigEvent.check] := by
  unfold checkPhase2
  split
  · rfl
  · split <;> rfl

theorem checkPhase2_snd_ok (env : MigrationEnv)
    (h : env.check2 = Except.ok ()) : (checkPhase2 env).snd = MigResult.ok := by
  unfold checkPhase2
  rw [h]

theorem checkPhase2_snd_cmd (env : MigrationEnv)
    (h : env.check2 = Except.error ExcKind.commandError) :
    (checkPhase2 env).snd = MigResult.ok := by
  unfold checkPhase2
  rw [h]

theorem checkPhase2_snd_diffs (env : MigrationEnv)
    (h : env.check2 = Except.error ExcKind.autogenDiffs) :
    (checkPhase2 env).snd = MigResult.ok := by
  unfold checkPhase2
  rw [h]

theorem checkPhase2_snd_other (env : MigrationEnv)
    (h : env.check2 = Except.error ExcKind.otherError) :
    (checkPhase2 env).snd = MigResult.uncaught ExcKind.otherError := by
  unfold checkPhase2
  rw [h]

theorem countCheck_append (l1 l2 : List MigEvent) :
    countCheck (l1 ++ l2) = countCheck l1 + countCheck l2 := by
  induction l1 with
  | nil => simp [countCheck]
  | cons a rest ih =>
    cases a <;> (simp [countCheck, ih]; try omega)

theorem countUpgrade_append (l1 l2 : List MigEvent) :
    countUpgrade (l1 ++ l2) = countUpgrade l1 + countUpgrade l2 := by
  induction l1 with
  | nil => simp [countUpgrade]
  | cons a rest ih =>
    cases a <;> (simp [countUpgrade, ih]; try omega)

theorem countCheck_checkPhase1 (env : MigrationEnv) :
    countCheck (checkPhase1 env) = 1 := by
  unfold checkPhase1
  split
  · rfl
  · split <;> rfl

theorem countUpgrade_checkPhase1 (env : MigrationEnv) :
    countUpgrade (checkPhase1 env) ≤ 1 := by
  unfold checkPhase1
  split
  · decide
  · split <;> decide

theorem run_migration_ok_query (env : MigrationEnv)
    (hq : env.versionTableQuery = Except.ok ()) :
    run_migration env =
      (MigEvent.queryVersionTable :: (checkPhase1 env ++ (checkPhase2 env).fst),
       (checkPhase2 env).snd) := by
  have hs : shouldInit env = false := by unfold shouldInit; rw [hq]
  unfold run_migration
  rw [hs]
  simp

theorem run_migration_err_query (env : MigrationEnv) (e : ExcKind)
    (hq : env.versionTableQuery = Except.error e) :
    run_migration env =
      match initPhase env with
      | (evs, some r) => (MigEvent.queryVersionTable :: evs, r)
      | (evs, none) =>
        (MigEvent.queryVersionTable ::
          (evs ++ (checkPhase1 env ++ (checkPhase2 env).fst)),
         (checkPhase2 env).snd) := by
  have hs : shouldInit env = true := by unfold shouldInit; rw [hq]
  unfold run_migration
  rw [hs]
  simp

theorem initPhase_err_ensure (env : MigrationEnv) (e : ExcKind)
    (hev : env.ensureVersion = Except.error e) :
    initPhase env =
      ([MigEvent.ensureVersion],
       some (MigResult.runtimeError "Error initializing alembic")) := by
  unfold initPhase
  rw [hev]

theorem initPhase_ok_err (env : MigrationEnv) (e : ExcKind)
    (hev : env.ensureVersion = Except.ok ())
    (hui : env.upgradeInit = Except.error e) :
    initPhase env =
      ([MigEvent.ensureVersion, MigEvent.upgradeHead],
       some (MigResult.runtimeError "Error initializing alembic")) := by
  unfold initPhase
  rw [hev, hui]

theorem initPhase_ok_ok (env : MigrationEnv)
    (hev : env.ensureVersion = Except.ok ())
    (hui : env.upgradeInit = Except.ok ()) :
    initPhase env = ([MigEvent.ensureVersion, MigEvent.upgradeHead], none) := by
  unfold initPhase
  rw [hev, hui]

/-!
C3, C5, C6: the migration claims.
-/

/-- C3: `run_migration` probes the `alembic_version` table first; when the
probe raises it initializes alembic (and upgrades to head when
`ensure_version` returned), raising `RuntimeError("Error initializing
alembic")` exactly when that initialization fails; when the probe succeeds
it never initializes and proceeds to the migration check. -/
theorem C3_run_migration_init_check (env : MigrationEnv) :
    (run_migration env).fst.head? = some MigEvent.queryVersionTable ∧
    (∀ e, env.versionTableQuery = Except.error e →
      MigEvent.ensureVersion ∈ (run_migration env).fst ∧
      (initFails env = true →
        (run_migration env).snd = MigResult.runtimeError "Error initializing alembic") ∧
      (env.ensureVersion = Except.ok () →
        MigEvent.upgradeHead ∈ (run_migration env).fst)) ∧
    (env.versionTableQuery = Except.ok () →
      MigEvent.ensureVersion ∉ (run_migration env).fst ∧
      MigEvent.check ∈ (run_migration env).fst) := by
  refine ⟨?_, ?_, ?_⟩
  · rcases hq : env.versionTableQuery with e | u
    · rcases hev : env.ensureVersion with e1 | u1
      · rw [run_migration_err_query env e hq, initPhase_err_ensure env e1 hev]
        rfl
      · cases u1
        rcases hui : env.upgradeInit with e2 | u2
        · rw [run_migration_err_query env e hq, initPhase_ok_err env e2 hev hui]
          rfl
        · cases u2
          rw [run_migration_err_query env e hq, initPhase_ok_ok env hev hui]
          rfl
    · cases u
      rw [run_migration_ok_query env hq]
      rfl
  · intro e hq
    rcases hev : env.ensureVersion with e1 | u1
    · rw [run_migration_err_query env e hq, initPhase_err_ensure env e1 hev]
      refine ⟨by simp, fun _ => rfl, fun hok => ?_⟩
      cases hok
    · cases u1
      rcases hui : env.upgradeInit with e2 | u2
      · rw [run_migration_err_query env e hq, initPhase_ok_err env e2 hev hui]
        exact ⟨by simp, fun _ => rfl, fun _ => by simp⟩
      · cases u2
        rw [run_migration_err_query env e hq, initPhase_ok_ok env hev hui]
        refine ⟨by simp, fun hf => ?_, fun _ => by simp⟩
        exfalso
        unfold initFails at hf
        rw [hev, hui] at hf
        cases hf
  · intro hq
    rw [run_migration_ok_query env hq]
    constructor
    · intro hmem
      rcases List.mem_cons.mp hmem with h1 | h2
      · cases h1
      · rcases List.mem_append.mp h2 with h3 | h4
        · exact checkPhase1_no_ensure env h3
        · rw [checkPhase2_fst] at h4
          simp at h4
    · exact List.mem_cons.mpr (Or.inr (List.mem_append.mpr
        (Or.inl (checkPhase1_check_mem env))))

/-- The all-successful environment: the probe finds `alembic_version` and
both checks pass. -/
def envAllOk : MigrationEnv :=
  { versionTableQuery := Except.ok ()
    ensureVersion := Except.ok ()
    upgradeInit := Except.ok ()
    check1 := Except.ok ()
    upgradeRetry := Except.ok ()
    check2 := Except.ok () }

/-- C5 counterexample: even in the plainest run (schema initialized, nothing
to migrate) `command.check` is invoked twice (source lines 124 and 135),
not once. -/
theorem C5_counterexample_check_twice :
    countCheck (run_migration envAllOk).fst = 2 ∧
    countCheck (run_migration envAllOk).fst ≠ 1 := by
  constructor <;> decide

/-- C5 as amended: in any execution that passes the initialization step (the
probe succeeded, or initialization succeeded), the migration framework's
check operation is invoked exactly twice. -/
theorem C5_check_invoked_twice (env : MigrationEnv)
    (h : shouldInit env = false ∨ initFails env = false) :
    countCheck (run_migration env).fst = 2 := by
  by_cases hs : shouldInit env = true
  · have hf : initFails env = false := by
      rcases h with h | h
      · rw [hs] at h; cases h
      · exact h
    rcases hq : env.versionTableQuery with e | u
    · rcases hev : env.ensureVersion with e1 | u1
      · exfalso
        unfold initFails at hf
        rw [hev] at hf
        cases hf
      · cases u1
        rcases hui : env.upgradeInit with e2 | u2
        · exfalso
          unfold initFails at hf
          rw [hev, hui] at hf
          cases hf
        · cases u2
          rw [run_migration_err_query env e hq, initPhase_ok_ok env hev hui]
          simp [countCheck, countCheck_append, countCheck_checkPhase1, checkPhase2_fst]
    · exfalso
      unfold shouldInit at hs
      rw [hq] at hs
      cases hs
  · rcases hq : env.versionTableQuery with e | u
    · exfalso
      apply hs
      unfold shouldInit
      rw [hq]
    · cases u
      rw [run_migration_ok_query env hq]
      simp [countCheck, countCheck_append, countCheck_checkPhase1, checkPhase2_fst]

theorem C5_witness_check_twice :
    countCheck (run_migration envAllOk).fst = 2 :=
  C5_check_invoked_twice envAllOk (Or.inl rfl)

/-- The environment where the schema is initialized but the final check dies
with an exception that is neither `CommandError` nor
`AutogenerateDiffsDetected` (a dropped database connection, say). -/
def envOtherFail : MigrationEnv :=
  { versionTableQuery := Except.ok ()
    ensureVersion := Except.ok ()
    upgradeInit := Except.ok ()
    check1 := Except.ok ()
    upgradeRetry := Except.ok ()
    check2 := Except.error ExcKind.otherError }

/-- C6 counterexample: the `alembic_version` table exists, yet `run_migration`
propagates an exception (the final check's failure is of a type the handlers
of lines 136-141 do not catch), and that exception is not the RuntimeError
from initialization. -/
theorem C6_counterexample_uncaught :
    envOtherFail.versionTableQuery = Except.ok () ∧
    (run_migration envOtherFail).snd = MigResult.uncaught ExcKind.otherError ∧
    (∀ msg, (run_migration envOtherFail).snd ≠ MigResult.runtimeError msg) := by
  refine ⟨rfl, rfl, ?_⟩
  intro msg h
  cases h

/-- C6 as amended: when the `alembic_version` table exists, a failed first
check triggers at most one upgrade attempt whose failure is only logged, a
final-check failure of the migration framework's own error types
(`CommandError`, including the `AutogenerateDiffsDetected` mismatch) is
logged and swallowed, and the only exception `run_migration` then propagates
is a final-check failure outside those types. -/
theorem C6_best_effort_swallow (env : MigrationEnv)
    (hq : env.versionTableQuery = Except.ok ()) :
    countUpgrade (run_migration env).fst ≤ 1 ∧
    ((env.check2 = Except.ok () ∨ env.check2 = Except.error ExcKind.commandError ∨
      env.check2 = Except.error ExcKind.autogenDiffs) →
      (run_migration env).snd = MigResult.ok) ∧
    (∀ e, (run_migration env).snd = MigResult.uncaught e →
      e = ExcKind.otherError ∧ env.check2 = Except.error ExcKind.otherError) := by
  rw [run_migration_ok_query env hq]
  refine ⟨?_, ?_, ?_⟩
  · simp only [countUpgrade, countUpgrade_append, checkPhase2_fst]
    have := countUpgrade_checkPhase1 env
    simp [countUpgrade]
    omega
  · intro h
    rcases h with h | h | h
    · exact checkPhase2_snd_ok env h
    · exact checkPhase2_snd_cmd env h
    · exact checkPhase2_snd_diffs env h
  · intro e he
    rcases hc : env.check2 with k | u
    · cases k
      · rw [checkPhase2_snd_cmd env hc] at he
        cases he
      · rw [checkPhase2_snd_diffs env hc] at he
        cases he
      · rw [checkPhase2_snd_other env hc] at he
        cases he
        exact ⟨rfl, rfl⟩
    · cases u
      rw [checkPhase2_snd_ok env hc] at he
      cases he

/-!
C2 and C4: the seeding claims.
-/

/-- C2: when workflows named both "Default Workflow" and "Travel Planning
Workflow" already exist, `init_db_samples` returns the database unchanged;
and running it twice is the same as running it once (the first run seeds both
sentinel workflows, so the second hits the guard). -/
theorem C2_init_db_samples_idempotent (db : SeedDb) :
    (("Default Workflow" ∈ db.workflows.map (fun w => w.name) ∧
      "Travel Planning Workflow" ∈ db.workflows.map (fun w => w.name)) →
      init_db_samples db = db) ∧
    init_db_samples (init_db_samples db) = init_db_samples db := by
  have hstep : ∀ d : SeedDb,
      "Default Workflow" ∈ d.workflows.map (fun w => w.name) →
      "Travel Planning Workflow" ∈ d.workflows.map (fun w => w.name) →
      init_db_samples d = d := by
    intro d h1 h2
    have b1 : (d.workflows.map (fun w => w.name)).contains "Default Workflow" = true :=
      List.elem_eq_true_of_mem h1
    have b2 : (d.workflows.map (fun w => w.name)).contains "Travel Planning Workflow" = true :=
      List.elem_eq_true_of_mem h2
    unfold init_db_samples
    rw [b1, b2]
    rfl
  constructor
  · intro h
    exact hstep db h.1 h.2
  · by_cases hg : ("Default Workflow" ∈ db.workflows.map (fun w => w.name) ∧
        "Travel Planning Workflow" ∈ db.workflows.map (fun w => w.name))
    · have h1 := hstep db hg.1 hg.2
      rw [h1]
      exact h1
    · have hseed : (init_db_samples db).workflows =
          db.workflows ++ [travel_workflow, default_workflow] := by
        unfold init_db_samples
        split
        · rename_i hcond
          exfalso
          rw [Bool.and_eq_true] at hcond
          exact hg ⟨List.elem_iff.mp hcond.1, List.elem_iff.mp hcond.2⟩
        · rfl
      refine hstep _ ?_ ?_
      · rw [hseed]
        simp [default_workflow]
      · rw [hseed]
        simp [travel_workflow]

/-!
Dictionary lemmas.
-/

theorem getKey_setKey_self (l : List (String × JValue)) (k : String) (v : JValue) :
    getKey (setKey l k v) k = some v := by
  induction l with
  | nil => simp [setKey, getKey]
  | cons kv rest ih =>
    obtain ⟨k0, v0⟩ := kv
    by_cases h : k0 = k
    · simp [setKey, getKey, h]
    · simp [setKey, getKey, h, ih]

theorem getKey_setKey_ne (l : List (String × JValue)) (k k2 : String) (v : JValue)
    (h : k2 ≠ k) : getKey (setKey l k v) k2 = getKey l k2 := by
  induction l with
  | nil => simp [setKey, getKey, Ne.symm h]
  | cons kv rest ih =>
    obtain ⟨k0, v0⟩ := kv
    by_cases h0 : k0 = k
    · subst h0
      simp [setKey, getKey, Ne.symm h]
    · by_cases h2 : k0 = k2
      · simp [setKey, getKey, h0, h2, h]
      · simp [setKey, getKey, h0, h2, ih]

theorem getKey_dumpExclude_mem (fields : List (String × JValue)) (ex : List String)
    (k : String) (hk : k ∈ ex) : getKey (dumpExclude fields ex) k = none := by
  induction fields with
  | nil => rfl
  | cons kv rest ih =>
    obtain ⟨k0, v0⟩ := kv
    by_cases hc : ex.contains k0 = true
    · have hmem0 : k0 ∈ ex := List.elem_iff.mp hc
      have hstep : dumpExclude ((k0, v0) :: rest) ex = dumpExclude rest ex := by
        simp [dumpExclude, List.filter_cons, hmem0]
      rw [hstep]
      exact ih
    · have hne : k0 ≠ k := by
        intro he
        subst he
        exact hc (List.elem_eq_true_of_mem hk)
      have hmem0 : k0 ∉ ex := fun hm => hc (List.elem_eq_true_of_mem hm)
      have hstep : dumpExclude ((k0, v0) :: rest) ex = (k0, v0) :: dumpExclude rest ex := by
        simp [dumpExclude, List.filter_cons, hmem0]
      rw [hstep]
      simp [getKey, hne, ih]

theorem getKey_dumpExclude_not_mem (fields : List (String × JValue)) (ex : List String)
    (k : String) (hk : k ∉ ex) :
    getKey (dumpExclude fields ex) k = getKey fields k := by
  induction fields with
  | nil => rfl
  | cons kv rest ih =>
    obtain ⟨k0, v0⟩ := kv
    by_cases hc : ex.contains k0 = true
    · have hmem0 : k0 ∈ ex := List.elem_iff.mp hc
      have hne : k0 ≠ k := by
        intro he
        subst he
        exact hk hmem0
      have hstep : dumpExclude ((k0, v0) :: rest) ex = dumpExclude rest ex := by
        simp [dumpExclude, List.filter_cons, hmem0]
      rw [hstep, ih]
      simp [getKey, hne]
    · have hmem0 : k0 ∉ ex := fun hm => hc (List.elem_eq_true_of_mem hm)
      have hstep : dumpExclude ((k0, v0) :: rest) ex = (k0, v0) :: dumpExclude rest ex := by
        simp [dumpExclude, List.filter_cons, hmem0]
      rw [hstep]
      by_cases hke : k0 = k
      · simp [getKey, hke]
      · simp [getKey, hke, ih]

/-!
Lemmas about the stable sort of source line 83.
-/

theorem insertRec_perm (a : JValue) (l : List JValue) :
    List.Perm (insertRec a l) (a :: l) := by
  induction l with
  | nil => simp [insertRec]
  | cons b bs ih =>
    unfold insertRec
    split
    · exact List.Perm.refl _
    · exact (ih.cons b).trans (List.Perm.swap a b bs)

theorem sortRecords_perm (l : List JValue) : List.Perm (sortRecords l) l := by
  induction l with
  | nil => simp [sortRecords]
  | cons a rest ih =>
    exact (insertRec_perm a (sortRecords rest)).trans (ih.cons a)

theorem insertRec_pairwise (a : JValue) (l : List JValue)
    (h : List.Pairwise (fun x y => recSeq x ≤ recSeq y) l) :
    List.Pairwise (fun x y => recSeq x ≤ recSeq y) (insertRec a l) := by
  induction l with
  | nil => simp [insertRec]
  | cons b bs ih =>
    unfold insertRec
    split
    · rename_i hab
      refine List.Pairwise.cons ?_ h
      intro c hc
      rcases List.mem_cons.mp hc with rfl | hc2
      · exact hab
      · exact le_trans hab (List.rel_of_pairwise_cons h hc2)
    · rename_i hab
      have hb := List.pairwise_cons.mp h
      refine List.Pairwise.cons ?_ (ih hb.2)
      intro c hc
      have hmem : c = a ∨ c ∈ bs := by
        have := (insertRec_perm a bs).mem_iff.mp hc
        simpa using this
      rcases hmem with rfl | hc2
      · exact le_of_not_le hab
      · exact hb.1 c hc2

theorem sortRecords_pairwise (l : List JValue) :
    List.Pairwise (fun x y => recSeq x ≤ recSeq y) (sortRecords l) := by
  induction l with
  | nil => simp [sortRecords]
  | cons a rest ih => exact insertRec_pairwise a (sortRecords rest) ih

/-!
Lemmas about `applyLlmConfig`, `mapEx`, `get_agent` and `buildRecords`.
-/

theorem applyLlmConfig_err_kind (d2 : List (String × JValue))
    (models : List (List (String × JValue))) (e : PyErr)
    (h : applyLlmConfig d2 models = Except.error e) :
    e = PyErr.keyError ∨ e = PyErr.typeError := by
  unfold applyLlmConfig at h
  split at h
  · split at h
    · cases h
      exact Or.inl rfl
    · split at h
      · split at h
        · cases h
        · cases h
      · split at h
        · cases h
          exact Or.inr rfl
        · cases h
    · cases h
      exact Or.inr rfl
  · cases h

theorem applyLlmConfig_nil (d2 : List (String × JValue)) :
    applyLlmConfig d2 [] = Except.ok d2 := rfl

theorem applyLlmConfig_preserves (d2 : List (String × JValue))
    (models : List (List (String × JValue))) (d3 : List (String × JValue))
    (hok : applyLlmConfig d2 models = Except.ok d3) (k : String)
    (hk : k ≠ "config") : getKey d3 k = getKey d2 k := by
  unfold applyLlmConfig at hok
  split at hok
  · split at hok
    · cases hok
    · split at hok
      · split at hok
        · cases hok
          exact getKey_setKey_ne d2 "config" k _ hk
        · cases hok
          exact getKey_setKey_ne d2 "config" k _ hk
      · split at hok
        · cases hok
        · cases hok
          exact getKey_setKey_ne d2 "config" k _ hk
    · cases hok
  · cases hok
    rfl

theorem applyLlmConfig_config_truthy (d2 : List (String × JValue))
    (models : List (List (String × JValue))) (d3 : List (String × JValue))
    (cfg lc : List (String × JValue))
    (hok : applyLlmConfig d2 models = Except.ok d3)
    (hm : models ≠ [])
    (hcfg : getKey d2 "config" = some (JValue.obj cfg))
    (hlc : getKey cfg "llm_config" = some (JValue.obj lc))
    (ht : jTruthy (JValue.obj lc) = true) :
    getKey d3 "config" = some (JValue.obj (setKey cfg "llm_config"
      (JValue.obj (setKey lc "config_list"
        (JValue.arr (models.map JValue.obj)))))) := by
  have h0 : models.length > 0 := List.length_pos.mpr hm
  unfold applyLlmConfig at hok
  rw [if_pos h0] at hok
  simp only [hcfg] at hok
  simp only [hlc, Option.getD_some] at hok
  rw [if_pos ht] at hok
  cases hok
  exact getKey_setKey_self d2 "config" _

theorem mapEx_error {α β : Type} {f : α → Except PyErr β} {l : List α} {e : PyErr}
    (h : mapEx f l = Except.error e) : ∃ a ∈ l, f a = Except.error e := by
  induction l with
  | nil => cases h
  | cons a rest ih =>
    unfold mapEx at h
    split at h
    · rename_i e2 hfa
      cases h
      exact ⟨a, List.mem_cons_self a rest, hfa⟩
    · split at h
      · rename_i hrest
        cases h
        obtain ⟨b, hb, hfb⟩ := ih hrest
        exact ⟨b, List.mem_cons_of_mem a hb, hfb⟩
      · cases h

theorem get_agent_no_valueError (db : Db) :
    ∀ fuel aid s, get_agent db fuel aid ≠ Except.error (PyErr.valueError s) := by
  intro fuel
  induction fuel with
  | zero =>
    intro aid s h
    cases h
  | succ n ih =>
    intro aid s h
    unfold get_agent at h
    split at h
    · cases h
    · split at h
      · rename_i e2 happ
        cases h
        rcases applyLlmConfig_err_kind _ _ _ happ with h1 | h1 <;> cases h1
      · split at h
        · rename_i e2 hmap
          cases h
          obtain ⟨a, _, hfa⟩ := mapEx_error hmap
          exact ih a s hfa
        · cases h

theorem buildRecords_no_valueError (db : Db) (fuel : Nat)
    (links : List WorkflowAgentLinkRow) (s : String) :
    buildRecords db fuel links ≠ Except.error (PyErr.valueError s) := by
  induction links with
  | nil => intro h; cases h
  | cons l rest ih =>
    intro h
    unfold buildRecords at h
    split at h
    · rename_i e hga
      cases h
      exact get_agent_no_valueError db fuel l.agent_id s hga
    · split at h
      · rename_i e hbr
        cases h
        exact ih hbr
      · cases h

theorem buildRecords_length (db : Db) (fuel : Nat) :
    ∀ links recs, buildRecords db fuel links = Except.ok recs →
      recs.length = links.length := by
  intro links
  induction links with
  | nil =>
    intro recs h
    cases h
    rfl
  | cons l rest ih =>
    intro recs h
    unfold buildRecords at h
    split at h
    · cases h
    · split at h
      · cases h
      · rename_i more hbr
        cases h
        simp [ih more hbr]

theorem buildRecords_get (db : Db) (fuel : Nat) :
    ∀ links recs, buildRecords db fuel links = Except.ok recs →
      ∀ i (hi : i < links.length) (hr : i < recs.length),
        ∃ a, get_agent db fuel (links.get ⟨i, hi⟩).agent_id = Except.ok a ∧
          recs.get ⟨i, hr⟩ = JValue.obj
            [("agent", a), ("link", linkDump (links.get ⟨i, hi⟩))] := by
  intro links
  induction links with
  | nil =>
    intro recs h i hi hr
    exact absurd hi (by simp)
  | cons l rest ih =>
    intro recs h i hi hr
    unfold buildRecords at h
    split at h
    · cases h
    · rename_i a hga
      split at h
      · cases h
      · rename_i more hbr
        cases h
        cases i with
        | zero => exact ⟨a, hga, rfl⟩
        | succ j =>
          have hj : j < rest.length := by
            simpa using hi
          have hjr : j < more.length := by
            rw [buildRecords_length db fuel rest more hbr]
            exact hj
          obtain ⟨a2, hga2, heq⟩ := ih more hbr j hj hjr
          exact ⟨a2, hga2, heq⟩

theorem buildRecords_recLink (db : Db) (fuel : Nat) :
    ∀ links recs, buildRecords db fuel links = Except.ok recs →
      recs.map recLink = links.map linkDump := by
  intro links
  induction links with
  | nil =>
    intro recs h
    cases h
    rfl
  | cons l rest ih =>
    intro recs h
    unfold buildRecords at h
    split at h
    · cases h
    · split at h
      · cases h
      · rename_i more hbr
        cases h
        simp only [List.map_cons]
        rw [ih more hbr]
        rfl

theorem get_agent_ok_shape (db : Db) (fuel : Nat) (aid : Int) (v : JValue)
    (hok : get_agent db (fuel + 1) aid = Except.ok v) :
    ∃ ag tl d3 subs,
      findAgent db aid = ag :: tl ∧
      applyLlmConfig
        (setKey (setKey (dump_agent ag) "skills"
            (JValue.arr (ag.skills.map (fun s => JValue.obj s.fields))))
          "models" (JValue.arr (ag.models.map (fun m => JValue.obj m.fields))))
        (ag.models.map (fun m => dumpExclude m.fields model_exclude)) =
          Except.ok d3 ∧
      mapEx (fun sid => get_agent db fuel sid) ag.agents = Except.ok subs ∧
      v = JValue.obj (setKey d3 "agents" (JValue.arr subs)) := by
  unfold get_agent at hok
  split at hok
  · cases hok
  · rename_i ag tl2 hfind
    split at hok
    · cases hok
    · rename_i d3 happ
      split at hok
      · cases hok
      · rename_i subs hmap
        cases hok
        exact ⟨ag, tl2, d3, subs, hfind, happ, hmap, rfl⟩

/-- C4: on a first run (the guard of line 148 is false), `init_db_samples`
adds 4 Model rows, 2 Skill rows, 6 Agent rows and 2 Workflow rows with one
commit, and records the 14 links: 5 agent_model, 1 agent_skill, 4
agent_agent and 4 workflow_agent links, the latter a sender and a receiver
for each of the two workflows. -/
theorem C4_first_run_seeding (db : SeedDb)
    (h : ((db.workflows.map (fun w => w.name)).contains "Default Workflow" &&
        (db.workflows.map (fun w => w.name)).contains "Travel Planning Workflow")
      = false) :
    (init_db_samples db).models.length = db.models.length + 4 ∧
    (init_db_samples db).skills.length = db.skills.length + 2 ∧
    (init_db_samples db).agents.length = db.agents.length + 6 ∧
    (init_db_samples db).workflows.length = db.workflows.length + 2 ∧
    (init_db_samples db).commits = db.commits + 1 ∧
    (init_db_samples db).links = db.links ++ seedLinks ∧
    (seedLinks.filter (fun l => l.link_type == "agent_model")).length = 5 ∧
    (seedLinks.filter (fun l => l.link_type == "agent_skill")).length = 1 ∧
    (seedLinks.filter (fun l => l.link_type == "agent_agent")).length = 4 ∧
    seedLinks.filter (fun l => l.link_type == "workflow_agent") =
      [{ link_type := "workflow_agent", primary_id := default_workflow.name,
         secondary_id := user_proxy.config.name, agent_type := some "sender" },
       { link_type := "workflow_agent", primary_id := default_workflow.name,
         secondary_id := default_assistant.config.name,
         agent_type := some "receiver" },
       { link_type := "workflow_agent", primary_id := travel_workflow.name,
         secondary_id := user_proxy.config.name, agent_type := some "sender" },
       { link_type := "workflow_agent", primary_id := travel_workflow.name,
         secondary_id := travel_groupchat_agent.config.name,
         agent_type := some "receiver" }] := by
  have hseed : init_db_samples db =
      { models := db.models ++ [zephyr_model, google_gemini_model, azure_model,
          gpt_4_model]
        skills := db.skills ++ [generate_image_skill, generate_pdf_skill]
        agents := db.agents ++ [user_proxy, default_assistant,
          travel_groupchat_agent, planner_assistant, local_assistant,
          language_assistant]
        workflows := db.workflows ++ [travel_workflow, default_workflow]
        links := db.links ++ seedLinks
        commits := db.commits + 1 } := by
    unfold init_db_samples
    rw [h]
    rfl
  rw [hseed]
  exact ⟨by simp, by simp, by simp, by simp, rfl, rfl, rfl, rfl, rfl, rfl⟩

/-- The empty database, for exercising the seeding theorem. -/
def emptySeedDb : SeedDb :=
  { models := [], skills := [], agents := [], workflows := [], links := [],
    commits := 0 }

theorem C4_witness_seed :
    (init_db_samples emptySeedDb).models.length = emptySeedDb.models.length + 4 ∧
    (init_db_samples emptySeedDb).links = emptySeedDb.links ++ seedLinks :=
  ⟨(C4_first_run_seeding emptySeedDb rfl).1,
   (C4_first_run_seeding emptySeedDb rfl).2.2.2.2.2.1⟩

/-- The environment where the first check reports a CommandError, the upgrade
retry itself fails, and the final check reports the autogenerate mismatch:
everything is logged and swallowed. -/
def envCheckFail : MigrationEnv :=
  { versionTableQuery := Except.ok ()
    ensureVersion := Except.ok ()
    upgradeInit := Except.ok ()
    check1 := Except.error ExcKind.commandError
    upgradeRetry := Except.error ExcKind.otherError
    check2 := Except.error ExcKind.autogenDiffs }

theorem C6_witness_swallow :
    countUpgrade (run_migration envCheckFail).fst ≤ 1 ∧
    (run_migration envCheckFail).snd = MigResult.ok :=
  ⟨(C6_best_effort_swallow envCheckFail rfl).1,
   (C6_best_effort_swallow envCheckFail rfl).2.1 (Or.inr (Or.inr rfl))⟩

/-!
C7, C1, C8, C9: the `workflow_from_id` claims.
-/

theorem workflow_from_id_cons (db : Db) (fuel : Nat) (wid : Int)
    (wf : WorkflowRow) (tl : List WorkflowRow)
    (hw : findWorkflow db wid = wf :: tl) :
    workflow_from_id db fuel wid =
      match buildRecords db fuel (linksFor db wid) with
      | Except.error e => Except.error e
      | Except.ok agents =>
        match getKey wf.fields "type" with
        | none => Except.error PyErr.keyError
        | some t =>
          Except.ok (JValue.obj (setKey wf.fields "agents"
            (JValue.arr (if isStrEq t "sequential" then sortRecords agents
              else agents)))) := by
  unfold workflow_from_id
  rw [hw]

theorem workflow_from_id_eq (db : Db) (fuel : Nat) (wid : Int)
    (wf : WorkflowRow) (tl : List WorkflowRow) (t : JValue) (recs : List JValue)
    (hw : findWorkflow db wid = wf :: tl)
    (ht : getKey wf.fields "type" = some t)
    (hb : buildRecords db fuel (linksFor db wid) = Except.ok recs) :
    workflow_from_id db fuel wid =
      Except.ok (JValue.obj (setKey wf.fields "agents"
        (JValue.arr (if isStrEq t "sequential" then sortRecords recs
          else recs)))) := by
  rw [workflow_from_id_cons db fuel wid wf tl hw, hb]
  show (match getKey wf.fields "type" with
      | none => Except.error PyErr.keyError
      | some t2 =>
        Except.ok (JValue.obj (setKey wf.fields "agents"
          (JValue.arr (if isStrEq t2 "sequential" then sortRecords recs
            else recs))))) = _
  rw [ht]

/-- C7: `workflow_from_id` fails with ValueError("The specified workflow does
not exist.") exactly when no Workflow row with the given id exists; no other
path produces that error (the embedding is a pure function of the database,
so the database is trivially left unchanged). -/
theorem C7_missing_workflow_value_error (db : Db) (fuel : Nat) (wid : Int) :
    workflow_from_id db fuel wid =
      Except.error (PyErr.valueError "The specified workflow does not exist.") ↔
    findWorkflow db wid = [] := by
  constructor
  · intro h
    cases hf : findWorkflow db wid with
    | nil => rfl
    | cons wf tl =>
      exfalso
      rw [workflow_from_id_cons db fuel wid wf tl hf] at h
      split at h
      · rename_i e hbr
        cases h
        exact buildRecords_no_valueError db fuel (linksFor db wid) _ hbr
      · split at h
        · cases h
        · cases h
  · intro hf
    unfold workflow_from_id
    rw [hf]

/-- C1: for a workflow id with a Workflow row (with the build succeeding and
the dump carrying a `"type"` key), `workflow_from_id` returns the workflow's
dump extended with an `"agents"` list holding exactly one record per matching
`WorkflowAgentLink` row (up to the sequential-type sort), each record pairing
the link's dump with the linked agent's dictionary; and every agent
dictionary `get_agent` builds is the agent's dump extended with its skills
under `"skills"`, its model dumps under `"models"` and its recursively built
sub-agents under `"agents"` (all other keys except the `"config"` rewrite of
C9 unchanged). -/
theorem C1_workflow_from_id_structure (db : Db) (fuel : Nat) (wid : Int)
    (wf : WorkflowRow) (tl : List WorkflowRow) (t : JValue) (recs : List JValue)
    (hw : findWorkflow db wid = wf :: tl)
    (ht : getKey wf.fields "type" = some t)
    (hb : buildRecords db fuel (linksFor db wid) = Except.ok recs) :
    (∃ out, workflow_from_id db fuel wid =
        Except.ok (JValue.obj (setKey wf.fields "agents" (JValue.arr out))) ∧
      List.Perm out recs) ∧
    recs.length = (linksFor db wid).length ∧
    (∀ i (hi : i < (linksFor db wid).length) (hr : i < recs.length),
      ∃ a, get_agent db fuel ((linksFor db wid).get ⟨i, hi⟩).agent_id = Except.ok a ∧
        recs.get ⟨i, hr⟩ = JValue.obj
          [("agent", a), ("link", linkDump ((linksFor db wid).get ⟨i, hi⟩))]) ∧
    (∀ aid v, get_agent db fuel aid = Except.ok v →
      ∃ ag vF subs,
        (∃ tl2, findAgent db aid = ag :: tl2) ∧
        v = JValue.obj vF ∧
        getKey vF "skills" =
          some (JValue.arr (ag.skills.map (fun s => JValue.obj s.fields))) ∧
        getKey vF "models" =
          some (JValue.arr (ag.models.map (fun m => JValue.obj m.fields))) ∧
        getKey vF "agents" = some (JValue.arr subs) ∧
        mapEx (fun sid => get_agent db (fuel - 1) sid) ag.agents = Except.ok subs ∧
        (∀ k, k ≠ "skills" → k ≠ "models" → k ≠ "agents" → k ≠ "config" →
          getKey vF k = getKey (dump_agent ag) k)) := by
  refine ⟨?_, buildRecords_length db fuel _ recs hb,
    buildRecords_get db fuel _ recs hb, ?_⟩
  · refine ⟨if isStrEq t "sequential" then sortRecords recs else recs, ?_, ?_⟩
    · exact workflow_from_id_eq db fuel wid wf tl t recs hw ht hb
    · by_cases hs : isStrEq t "sequential" = true
      · rw [if_pos hs]
        exact sortRecords_perm recs
      · rw [if_neg hs]
  · intro aid v hok
    cases fuel with
    | zero => cases hok
    | succ n =>
      obtain ⟨ag, tl2, d3, subs, hfind, happ, hmap, hv⟩ :=
        get_agent_ok_shape db n aid v hok
      refine ⟨ag, setKey d3 "agents" (JValue.arr subs), subs, ⟨tl2, hfind⟩, hv,
        ?_, ?_, ?_, ?_, ?_⟩
      · rw [getKey_setKey_ne d3 "agents" "skills" (JValue.arr subs) (by decide),
            applyLlmConfig_preserves _ _ _ happ "skills" (by decide),
            getKey_setKey_ne _ "models" "skills" _ (by decide)]
        exact getKey_setKey_self (dump_agent ag) "skills" _
      · rw [getKey_setKey_ne d3 "agents" "models" (JValue.arr subs) (by decide),
            applyLlmConfig_preserves _ _ _ happ "models" (by decide)]
        exact getKey_setKey_self _ "models" _
      · exact getKey_setKey_self d3 "agents" (JValue.arr subs)
      · simpa using hmap
      · intro k hk1 hk2 hk3 hk4
        rw [getKey_setKey_ne d3 "agents" k (JValue.arr subs) hk3,
            applyLlmConfig_preserves _ _ _ happ k hk4,
            getKey_setKey_ne _ "models" k _ hk2]
        exact getKey_setKey_ne (dump_agent ag) "skills" k _ hk1

/-- C8: when the workflow's dumped type is the string "sequential" the
returned `"agents"` list is the records stably sorted in ascending order of
the link's `sequence_id`; for every other type value it is the records in
link-row order; the records carry the link dumps in the order the rows were
returned. -/
theorem C8_agent_order (db : Db) (fuel : Nat) (wid : Int)
    (wf : WorkflowRow) (tl : List WorkflowRow) (t : JValue) (recs : List JValue)
    (hw : findWorkflow db wid = wf :: tl)
    (ht : getKey wf.fields "type" = some t)
    (hb : buildRecords db fuel (linksFor db wid) = Except.ok recs) :
    (isStrEq t "sequential" = true →
      workflow_from_id db fuel wid = Except.ok (JValue.obj (setKey wf.fields
        "agents" (JValue.arr (sortRecords recs)))) ∧
      List.Pairwise (fun a b => recSeq a ≤ recSeq b) (sortRecords recs) ∧
      List.Perm (sortRecords recs) recs) ∧
    (isStrEq t "sequential" = false →
      workflow_from_id db fuel wid = Except.ok (JValue.obj (setKey wf.fields
        "agents" (JValue.arr recs)))) ∧
    recs.map recLink = (linksFor db wid).map linkDump := by
  refine ⟨?_, ?_, buildRecords_recLink db fuel _ recs hb⟩
  · intro hs
    refine ⟨?_, sortRecords_pairwise recs, sortRecords_perm recs⟩
    rw [workflow_from_id_eq db fuel wid wf tl t recs hw ht hb, if_pos hs]
  · intro hs
    have hs2 : ¬(isStrEq t "sequential" = true) := by
      rw [hs]
      exact Bool.false_ne_true
    rw [workflow_from_id_eq db fuel wid wf tl t recs hw ht hb, if_neg hs2]

/-- C9: in every agent dictionary built inside `workflow_from_id`: with no
models the `"config"` value is the dump's, untouched; with at least one model
and a truthy dict llm_config, `llm_config["config_list"]` becomes the models
dumped with id, agent_id, created_at, updated_at, user_id and description
excluded; and `dump_agent` excludes admin_name, messages, max_round,
speaker_selection_method and allow_repeat_speaker for a non-groupchat agent
while a groupchat agent's dump excludes nothing. -/
theorem C9_agent_dict_config (db : Db) (fuel : Nat) (aid : Int) (v : JValue)
    (ag : AgentRow) (tl : List AgentRow)
    (hok : get_agent db fuel aid = Except.ok v)
    (ha : findAgent db aid = ag :: tl) :
    (∃ vF, v = JValue.obj vF ∧
      (ag.models = [] → getKey vF "config" = getKey (dump_agent ag) "config") ∧
      (∀ cfg lc, ag.models ≠ [] →
        getKey (dump_agent ag) "config" = some (JValue.obj cfg) →
        getKey cfg "llm_config" = some (JValue.obj lc) →
        jTruthy (JValue.obj lc) = true →
        getKey vF "config" = some (JValue.obj (setKey cfg "llm_config" (JValue.obj
          (setKey lc "config_list" (JValue.arr (ag.models.map
            (fun m => JValue.obj (dumpExclude m.fields model_exclude)))))))))) ∧
    (ag.type = AgentType.groupchat → dump_agent ag = ag.fields) ∧
    (ag.type ≠ AgentType.groupchat →
      (∀ k, k ∈ agentExclude → getKey (dump_agent ag) k = none) ∧
      (∀ k, k ∉ agentExclude → getKey (dump_agent ag) k = getKey ag.fields k)) := by
  refine ⟨?_, ?_, ?_⟩
  · cases fuel with
    | zero => cases hok
    | succ n =>
      obtain ⟨ag2, tl2, d3, subs, hfind, happ, hmap, hv⟩ :=
        get_agent_ok_shape db n aid v hok
      rw [ha] at hfind
      cases hfind
      refine ⟨setKey d3 "agents" (JValue.arr subs), hv, ?_, ?_⟩
      · intro hm
        rw [getKey_setKey_ne d3 "agents" "config" (JValue.arr subs) (by decide)]
        rw [hm] at happ
        simp only [List.map_nil] at happ
        rw [applyLlmConfig_nil] at happ
        cases happ
        rw [getKey_setKey_ne _ "models" "config" _ (by decide),
            getKey_setKey_ne _ "skills" "config" _ (by decide)]
      · intro cfg lc hm hcfg hlc htr
        have hc2 : getKey (setKey (setKey (dump_agent ag) "skills"
            (JValue.arr (ag.skills.map (fun s => JValue.obj s.fields)))) "models"
            (JValue.arr (ag.models.map (fun m => JValue.obj m.fields)))) "config"
            = some (JValue.obj cfg) := by
          rw [getKey_setKey_ne _ "models" "config" _ (by decide),
              getKey_setKey_ne _ "skills" "config" _ (by decide)]
          exact hcfg
        have hmm : ag.models.map (fun m => dumpExclude m.fields model_exclude) ≠ [] := by
          intro hx
          exact hm (List.map_eq_nil_iff.mp hx)
        have hres := applyLlmConfig_config_truthy _ _ _ cfg lc happ hmm hc2 hlc htr
        rw [getKey_setKey_ne d3 "agents" "config" (JValue.arr subs) (by decide), hres]
        rw [List.map_map]
        rfl
  · intro hg
    unfold dump_agent
    rw [if_pos hg]
  · intro hg
    constructor
    · intro k hk
      unfold dump_agent
      rw [if_neg hg]
      exact getKey_dumpExclude_mem ag.fields agentExclude k hk
    · intro k hk
      unfold dump_agent
      rw [if_neg hg]
      exact getKey_dumpExclude_not_mem ag.fields agentExclude k hk

/-!
Concrete witnesses: a one-workflow, one-link, one-agent database and an empty
seed database.
-/

/-- A concrete model row for the witness database. -/
def exModel : ModelRow :=
  ⟨[("id", JValue.num 3), ("model", JValue.str "gpt"), ("user_id", JValue.str "u")]⟩

/-- A concrete agent: one skill, one model, a truthy llm config, no sub-agents. -/
def exAgent : AgentRow :=
  { id := 7
    type := AgentType.assistant
    fields := [("type", JValue.str "assistant"), ("admin_name", JValue.str "x"),
      ("config", JValue.obj [("name", JValue.str "a1"),
        ("llm_config", JValue.obj [("temperature", JValue.num 1)])])]
    skills := [⟨[("name", JValue.str "sk")]⟩]
    models := [exModel]
    agents := [] }

/-- The one workflow-agent link of the witness database. -/
def exLink : WorkflowAgentLinkRow :=
  { workflow_id := 1, agent_id := 7, agent_type := "sender", sequence_id := 0 }

/-- A sequential workflow row. -/
def exWf : WorkflowRow :=
  { id := 1, name := "W",
    fields := [("id", JValue.num 1), ("name", JValue.str "W"),
               ("type", JValue.str "sequential")] }

/-- The witness database. -/
def exDb : Db :=
  { workflows := [exWf], workflowAgentLinks := [exLink], agents := [exAgent] }

/-- The records the witness database's build produces. -/
def exRecs : List JValue :=
  match buildRecords exDb 2 (linksFor exDb 1) with
  | Except.ok r => r
  | Except.error _ => []

/-- The witness agent's dictionary. -/
def exAgentDict : JValue :=
  match get_agent exDb 1 7 with
  | Except.ok v => v
  | Except.error _ => JValue.null

theorem C1_witness_structure :
    ∃ out, workflow_from_id exDb 2 1 =
      Except.ok (JValue.obj (setKey exWf.fields "agents" (JValue.arr out))) ∧
      List.Perm out exRecs :=
  (C1_workflow_from_id_structure exDb 2 1 exWf [] (JValue.str "sequential") exRecs
    rfl rfl rfl).1

theorem C8_witness_order :
    exRecs.map recLink = (linksFor exDb 1).map linkDump :=
  (C8_agent_order exDb 2 1 exWf [] (JValue.str "sequential") exRecs rfl rfl rfl).2.2

theorem C9_witness_dict :
    ∃ vF, exAgentDict = JValue.obj vF ∧
      (exAgent.models = [] →
        getKey vF "config" = getKey (dump_agent exAgent) "config") ∧
      (∀ cfg lc, exAgent.models ≠ [] →
        getKey (dump_agent exAgent) "config" = some (JValue.obj cfg) →
        getKey cfg "llm_config" = some (JValue.obj lc) →
        jTruthy (JValue.obj lc) = true →
        getKey vF "config" = some (JValue.obj (setKey cfg "llm_config" (JValue.obj
          (setKey lc "config_list" (JValue.arr (exAgent.models.map
            (fun m => JValue.obj (dumpExclude m.fields model_exclude))))))))) :=
  (C9_agent_dict_config exDb 1 7 exAgentDict exAgent [] rfl rfl).1

end AutogenDbUtils
